import Mathlib

/-
  Verification of the convo-stream audio orchestrator.

  Shallow embedding of the per-session orchestration core of the
  audio-orchestrator server: the voice activity tracker
  (updateVoiceActivity), the audio analyzer (analyzeAudio), the
  conversation store (ConversationManager), the buffered-transcript
  processor (processBufferedTranscripts), the socket handlers
  (handleStopProcessing, handleAudioData, get-conversation-stats) and
  the HTTP GET routes.

  Conventions of the embedding:
  - JavaScript Map objects become association lists in insertion order.
  - Date.now() becomes an explicit integer parameter named now.
  - setTimeout handles become booleans recording whether a timer is pending.
  - AbortController attachments become booleans recording presence.
  - Upstream network calls (LLM, TTS) become oracle parameters that state
    how the call resolves; the surrounding control flow is taken from the
    source verbatim.
-/

namespace ConvoStream

/-! ## Association list helpers (JavaScript Map semantics) -/

/-- Lookup in an association list, first match wins (Map.get). -/
def lookupA {α : Type} : List (String × α) → String → Option α
  | [], _ => none
  | (k0, v) :: rest, k => if k0 = k then some v else lookupA rest k

/-- Replace the value stored at a key, keeping positions (part of Map.set). -/
def setA {α : Type} : List (String × α) → String → α → List (String × α)
  | [], _, _ => []
  | (k0, v0) :: rest, k, v =>
    if k0 = k then (k, v) :: setA rest k v else (k0, v0) :: setA rest k v

/-- Map.set: replace in place when the key is present, append otherwise. -/
def putA {α : Type} (m : List (String × α)) (k : String) (v : α) : List (String × α) :=
  if (lookupA m k).isSome then setA m k v else m ++ [(k, v)]

/-- Map.delete: drop the entry with the given key. -/
def delA {α : Type} : List (String × α) → String → List (String × α)
  | [], _ => []
  | (k0, v0) :: rest, k =>
    if k0 = k then delA rest k else (k0, v0) :: delA rest k

/-! ## Voice Activity Tracker (src: updateVoiceActivity and friends) -/

/-- Source interface VoiceActivityState. The silenceTimer handle is a boolean
recording whether a silence timeout is pending. -/
structure VoiceActivityState where
  isActive : Bool
  lastVoiceTime : ℤ
  lastTranscriptionStart : ℤ
  silenceTimer : Bool
  transcriptionStarted : Bool
  consecutiveVoiceFrames : ℕ
  consecutiveSilenceFrames : ℕ
  deriving Repr, DecidableEq

/-- Source initializeVoiceActivityState. -/
def initializeVoiceActivityState (now : ℤ) : VoiceActivityState :=
  { isActive := false
    lastVoiceTime := now
    lastTranscriptionStart := 0
    silenceTimer := false
    transcriptionStarted := false
    consecutiveVoiceFrames := 0
    consecutiveSilenceFrames := 0 }

/-- Source updateVoiceActivity. The sessionExists flag models the
sessions.get(sessionId) lookup guarding the start decision. The boolean
result records whether startSmartTranscription was invoked, which is the
START_TRANSCRIPTION decision of the tracker. Starting the upstream
transcription is asynchronous in the source, so transcriptionStarted is not
set here; only lastTranscriptionStart is updated at the moment of the start. -/
def updateVoiceActivity (vadState : VoiceActivityState) (sessionExists : Bool)
    (now : ℤ) (isVoiceActive : Bool) : VoiceActivityState × Bool :=
  if isVoiceActive then
    -- voice detected: bump the voice counter, reset the silence counter,
    -- refresh lastVoiceTime, mark active, clear any pending silence timer
    let s := { vadState with
      consecutiveVoiceFrames := vadState.consecutiveVoiceFrames + 1
      consecutiveSilenceFrames := 0
      lastVoiceTime := now
      isActive := true
      silenceTimer := false }
    if s.transcriptionStarted = false ∧ 3 ≤ s.consecutiveVoiceFrames ∧
        2000 < now - s.lastTranscriptionStart then
      if sessionExists then
        ({ s with lastTranscriptionStart := now }, true)
      else (s, false)
    else (s, false)
  else
    -- silence: bump the silence counter, reset the voice counter
    let s := { vadState with
      consecutiveSilenceFrames := vadState.consecutiveSilenceFrames + 1
      consecutiveVoiceFrames := 0 }
    if s.isActive = true ∧ s.transcriptionStarted = true ∧
        5 ≤ s.consecutiveSilenceFrames ∧ s.silenceTimer = false then
      ({ s with silenceTimer := true }, false)
    else (s, false)

/-- Feed a list of (timestamp, voiceActive) frames through updateVoiceActivity,
counting how many START_TRANSCRIPTION decisions were made. -/
def runVad (vadState : VoiceActivityState) (sessionExists : Bool) :
    List (ℤ × Bool) → VoiceActivityState × ℕ
  | [] => (vadState, 0)
  | (now, v) :: rest =>
    let step := updateVoiceActivity vadState sessionExists now v
    let tail := runVad step.1 sessionExists rest
    (tail.1, (if step.2 then 1 else 0) + tail.2)

/-! ## Audio Analyzer (src: analyzeAudio) -/

/-- JavaScript number restricted to the values arising in analyzeAudio:
NaN, positive infinity, or a finite rational. -/
inductive JSNum where
  | nan : JSNum
  | inf : JSNum
  | fin : ℚ → JSNum
  deriving Repr, DecidableEq

/-- JavaScript division for nonnegative operands: 0/0 is NaN and x/0 with
x positive is Infinity. -/
def jsDiv (a b : ℚ) : JSNum :=
  if b = 0 then (if a = 0 then JSNum.nan else JSNum.inf) else JSNum.fin (a / b)

/-- JavaScript comparison x > c: false when x is NaN, true when x is
Infinity. -/
def jsGt (x : JSNum) (c : ℚ) : Bool :=
  match x with
  | JSNum.nan => false
  | JSNum.inf => true
  | JSNum.fin q => decide (c < q)

/-- Sum of squared samples, exact (squares are nonnegative). -/
def sumSquares (samples : List ℤ) : ℕ :=
  (samples.map (fun x => (x * x).toNat)).sum

/-- Exact value of Math.round of the square root of a over b, for b positive:
round half up of the real square root of a rational, computed as
floor of (2 times the integer square root of 4ab plus 2b) over 4b, which
simplifies to the expression below. -/
def roundSqrtDiv (a b : ℕ) : ℕ := (Nat.sqrt (4 * a * b) + b) / (2 * b)

/-- Source AudioFrame: timestamp, signed 16-bit PCM samples, sample rate,
channel count. -/
structure AudioFrame where
  timestamp : ℤ
  samples : List ℤ
  sampleRate : ℕ
  channels : ℕ
  deriving Repr, DecidableEq

/-- Result record of analyzeAudio. -/
structure AnalysisResult where
  volume : JSNum
  isVoiceActive : Bool
  zeroCrossingRate : JSNum
  sampleCount : ℕ
  duration : JSNum
  deriving Repr, DecidableEq

/-- Number of sign flips between adjacent samples, where the sign test of the
source is x greater or equal to zero. -/
def zeroCrossings : List ℤ → ℕ
  | x :: y :: rest => (if (0 ≤ y) = (0 ≤ x) then 0 else 1) + zeroCrossings (y :: rest)
  | _ => 0

/-- The volume computed by analyzeAudio. In the source,
rms = Math.sqrt(sum / samples.length) and
volume = Math.min(100, Math.max(0, Math.round((rms / 32768) * 100))).
For an empty frame, sum / length is 0/0 = NaN in JavaScript, and NaN
propagates through sqrt, round, max and min, so the volume is NaN.
Otherwise the chain round((sqrt(sum/len) / 32768) * 100) equals
round(sqrt((sum * 10000) / (len * 32768 ^ 2))) exactly, which roundSqrtDiv
computes over the naturals. -/
def analyzeVolume (samples : List ℤ) : JSNum :=
  match jsDiv (sumSquares samples : ℚ) (samples.length : ℚ) with
  | JSNum.nan => JSNum.nan
  | JSNum.inf => JSNum.fin 100  -- round(Infinity) clamped by min(100, _); unreachable
  | JSNum.fin _ =>
    JSNum.fin (min 100 (max 0 (roundSqrtDiv (sumSquares samples * 10000)
      (samples.length * 32768 ^ 2)) : ℕ) : ℕ)

/-- Source analyzeAudio: volume from RMS, energy-based voice activity with
fixed threshold 5, zero crossing rate, sample count and duration. -/
def analyzeAudio (frame : AudioFrame) : AnalysisResult :=
  let volume := analyzeVolume frame.samples
  { volume := volume
    isVoiceActive := jsGt volume 5
    zeroCrossingRate := jsDiv (zeroCrossings frame.samples : ℚ) (frame.samples.length : ℚ)
    sampleCount := frame.samples.length
    duration := jsDiv (frame.samples.length : ℚ) (frame.sampleRate : ℚ) }

/-! ## Conversation Store (src: ConversationManager) -/

inductive Role where
  | user : Role
  | assistant : Role
  deriving Repr, DecidableEq

structure Message where
  role : Role
  content : String
  timestamp : ℤ
  deriving Repr, DecidableEq

structure Conversation where
  id : String
  userId : String
  messages : List Message
  createdAt : ℤ
  updatedAt : ℤ
  deriving Repr, DecidableEq

/-- The private conversations map of ConversationManager, keyed by user id. -/
abbrev ConversationStore := List (String × Conversation)

/-- The Conversation lazily created by getConversation for an unseen user. -/
def freshConversation (userId : String) (now : ℤ) : Conversation :=
  { id := "conv_" ++ userId ++ "_" ++ toString now
    userId := userId
    messages := []
    createdAt := now
    updatedAt := now }

/-- Source ConversationManager.getConversation: get or lazily create. -/
def getConversation (store : ConversationStore) (userId : String) (now : ℤ) :
    ConversationStore × Conversation :=
  match lookupA store userId with
  | some c => (store, c)
  | none =>
    let c := freshConversation userId now
    (putA store userId c, c)

/-- Shared body of addUserMessage and addAssistantMessage: push a message and
refresh updatedAt. -/
def addMessage (store : ConversationStore) (userId : String) (role : Role)
    (content : String) (now : ℤ) : ConversationStore :=
  let step := getConversation store userId now
  putA step.1 userId
    { step.2 with messages := step.2.messages ++ [⟨role, content, now⟩], updatedAt := now }

/-- Source ConversationManager.addUserMessage. -/
def addUserMessage (store : ConversationStore) (userId content : String) (now : ℤ) :
    ConversationStore :=
  addMessage store userId Role.user content now

/-- Source ConversationManager.addAssistantMessage. -/
def addAssistantMessage (store : ConversationStore) (userId content : String) (now : ℤ) :
    ConversationStore :=
  addMessage store userId Role.assistant content now

/-- Source ConversationManager.getConversationHistory: the last limit messages
(messages.slice(-limit)). Every call site passes a positive limit, for which
slice(-limit) equals dropping all but the last limit elements. -/
def getConversationHistory (store : ConversationStore) (userId : String)
    (limit : ℕ) (now : ℤ) : ConversationStore × List Message :=
  let step := getConversation store userId now
  (step.1, step.2.messages.drop (step.2.messages.length - limit))

/-- Result record of ConversationManager.getStats. -/
structure Stats where
  totalConversations : ℕ
  totalMessages : ℕ
  deriving Repr, DecidableEq

/-- Source ConversationManager.getStats. -/
def getStats (store : ConversationStore) : Stats :=
  { totalConversations := store.length
    totalMessages := (store.map (fun p => p.2.messages.length)).sum }

/-- Messages currently stored for a user (empty when no conversation exists). -/
def convMessages (store : ConversationStore) (userId : String) : List Message :=
  match lookupA store userId with
  | some c => c.messages
  | none => []

/-! ## Sessions, transcription registry and transport events -/

/-- Source BufferedTranscript. -/
structure BufferedTranscript where
  transcript : String
  confidence : ℚ
  timestamp : ℤ
  deriving Repr, DecidableEq

/-- Source AudioProcessingSession. Timer and AbortController attachments are
booleans recording presence; the socket handle is an opaque numeric id. -/
structure Session where
  id : String
  userId : String
  socketId : ℕ
  isProcessing : Bool
  startTime : ℤ
  languageCode : String
  transcriptBuffer : List BufferedTranscript
  aiResponseTimer : Bool
  isTTSPlaying : Bool
  currentTTSController : Bool
  lastTTSStartTime : Option ℤ
  currentAIController : Bool
  isAIGenerating : Bool
  lastAIStartTime : Option ℤ
  deriving Repr, DecidableEq

/-- Per-session entry of the aws-transcribe activeTranscriptions map; the
client and the callbacks are external handles with no observable state here. -/
structure TranscriptionSession where
  audioChunks : List (List ℤ)
  isActive : Bool
  deriving Repr, DecidableEq

/-- The module-level mutable state of the server: the sessions map, the
voiceActivityStates map, the aws-transcribe activeTranscriptions map and the
ConversationManager conversations map. -/
structure ServerState where
  sessions : List (String × Session)
  voiceActivityStates : List (String × VoiceActivityState)
  activeTranscriptions : List (String × TranscriptionSession)
  conversations : ConversationStore
  deriving Repr, DecidableEq

/-- Events emitted on the transport (socket.emit calls), with the payload
parts the claims are about. -/
inductive Emit where
  | aiResponse (response transcript : String) (confidence : ℚ) (bufferedTranscripts : Bool)
  | ttsAudio (text : String)
  | ttsError
  | ttsUnavailable
  | aiResponseError
  | processingStopped
  | processingResults
  | errorEvt (message : String)
  | conversationStats (payload : List (String × ℤ))
  deriving Repr, DecidableEq

/-! ## aws-transcribe module operations used by the handlers -/

/-- Source stopTranscription: missing session is a no-op; otherwise the
session is deactivated, onEnd fires (a no-op for the orchestrator, which
never installs onEnd) and the entry is deleted. -/
def stopTranscription (m : List (String × TranscriptionSession)) (sessionId : String) :
    List (String × TranscriptionSession) :=
  match lookupA m sessionId with
  | none => m
  | some _ => delA m sessionId

/-- Source isTranscriptionActive. -/
def isTranscriptionActive (m : List (String × TranscriptionSession))
    (sessionId : String) : Bool :=
  match lookupA m sessionId with
  | some s => s.isActive
  | none => false

/-- Source addAudioChunk: append the chunk when the session is active. -/
def addAudioChunk (m : List (String × TranscriptionSession)) (sessionId : String)
    (samples : List ℤ) : List (String × TranscriptionSession) :=
  match lookupA m sessionId with
  | none => m
  | some s =>
    if s.isActive then setA m sessionId { s with audioChunks := s.audioChunks ++ [samples] }
    else m

/-- Source getActiveTranscriptionCount. -/
def getActiveTranscriptionCount (m : List (String × TranscriptionSession)) : ℕ :=
  m.length

/-! ## HTTP GET surface -/

/-- The paths registered with app.get in the source. -/
def expressGetRoutes : List String := ["/", "/health", "/status", "/sessions"]

/-- Status code of a GET request: 200 for a registered route, 404 from the
Express default handler otherwise. -/
def httpGetStatus (path : String) : ℕ :=
  if path ∈ expressGetRoutes then 200 else 404

/-- Body of the GET /health response. -/
structure HealthBody where
  status : String
  activeSessions : ℕ
  activeTranscriptions : ℕ
  uptime : ℚ
  timestamp : String
  deriving Repr, DecidableEq

/-- Source handler of GET /health. -/
def healthHandler (st : ServerState) (uptime : ℚ) (nowIso : String) : HealthBody :=
  { status := "ok"
    activeSessions := st.sessions.length
    activeTranscriptions := getActiveTranscriptionCount st.activeTranscriptions
    uptime := uptime
    timestamp := nowIso }

/-! ## Conversation stats handler -/

/-- Payload of the conversation-stats event: the spread of the getStats
record followed by the timestamp, in insertion order. -/
def conversationStatsPayload (store : ConversationStore) (now : ℤ) : List (String × ℤ) :=
  [("totalConversations", ((getStats store).totalConversations : ℤ)),
   ("totalMessages", ((getStats store).totalMessages : ℤ)),
   ("timestamp", now)]

/-- Source get-conversation-stats socket handler (getConversationStats never
throws, so the catch branch is unreachable). -/
def handleGetConversationStats (store : ConversationStore) (now : ℤ) : List Emit :=
  [Emit.conversationStats (conversationStatsPayload store now)]

/-- The key list the specification claims for the conversation-stats
payload, written from the words of the spec. -/
def specConversationStatsKeys : List String :=
  ["conversationCount", "totalTurns", "timestamp"]

/-! ## Responder adapter (src: ai/openrouter.ts) and the turn buffer -/

/-- How the upstream generateText call resolves: with a reply text, or with
a non-cancel rejection (for example an LLM 5xx). -/
inductive ResponderOutcome where
  | success : String → ResponderOutcome
  | failure : ResponderOutcome
  deriving Repr, DecidableEq

/-- The canned reply returned when OPENROUTER_API_KEY is missing. -/
def noKeyResponse : String :=
  "I'm sorry, but AI responses are not available right now. Please check the server configuration."

/-- The fallback reply returned by the catch branch of
generateResponseWithOpenRouter. -/
def fallbackResponse : String :=
  "I'm sorry, I couldn't process that right now. Could you try again?"

/-- Source generateResponseWithOpenRouter. Every internal error, including a
cancellation of the race, is caught by the trailing catch, so the function
never throws: it returns the fallback text instead. The caller creates the
abort controller fresh, so the pre-call aborted check is false; the
abortedDuring flag states whether the signal fired during the upstream call.
The conversation context read and the prompt assembly feed only the upstream
call, whose resolution is the outcome oracle, and touch no state. On success
the user message and the assistant message are stored; on failure only the
user message, added before the call, remains. -/
def generateResponseWithOpenRouter (store : ConversationStore)
    (userId userSpeech : String) (now : ℤ) (apiKey : Bool)
    (outcome : ResponderOutcome) (abortedDuring : Bool) :
    ConversationStore × String :=
  if apiKey = false then (store, noKeyResponse)
  else
    let store1 := addUserMessage store userId userSpeech now
    if abortedDuring then (store1, fallbackResponse)
    else
      match outcome with
      | ResponderOutcome.success t => (addAssistantMessage store1 userId t now, t)
      | ResponderOutcome.failure => (store1, fallbackResponse)

/-- JavaScript String.prototype.trim: strip leading and trailing whitespace
(modelled over the character list with the Lean whitespace predicate). -/
def jsTrim (s : String) : String :=
  String.mk (((s.data.dropWhile Char.isWhitespace).reverse.dropWhile Char.isWhitespace).reverse)

/-- The combined transcript of processBufferedTranscripts: each fragment
trimmed, empty results filtered out, the rest joined with single spaces. -/
def combineTranscripts (buffer : List BufferedTranscript) : String :=
  String.intercalate " "
    ((buffer.map (fun item => jsTrim item.transcript)).filter (fun text => 0 < text.length))

/-- Source processBufferedTranscripts, for a session that was found in the
registry. Oracle parameters: apiKey (OPENROUTER_API_KEY present), outcome
(how the upstream LLM call resolves), abortedDuring (barge-in aborted the
reply mid-call), ttsAvailable (ELEVENLABS_API_KEY present) and ttsOk
(generateTTS resolves rather than throws). The inner catch that would emit
ai-response-error is unreachable, because generateResponseWithOpenRouter
catches its own errors and returns a fallback text instead of throwing. -/
def processBufferedTranscripts (session : Session) (store : ConversationStore)
    (now : ℤ) (apiKey : Bool) (outcome : ResponderOutcome)
    (abortedDuring ttsAvailable ttsOk : Bool) :
    Session × ConversationStore × List Emit :=
  if session.transcriptBuffer.length = 0 then (session, store, [])
  else
    let combinedTranscript := combineTranscripts session.transcriptBuffer
    if combinedTranscript.length = 0 then
      ({ session with transcriptBuffer := [] }, store, [])
    else
      let avgConfidence :=
        (session.transcriptBuffer.map (fun item => item.confidence)).sum /
          (session.transcriptBuffer.length : ℚ)
      -- clear the buffer, then set up AI generation tracking
      let session1 := { session with
        transcriptBuffer := []
        currentAIController := true
        isAIGenerating := true
        lastAIStartTime := some now }
      let call := generateResponseWithOpenRouter store session1.userId
        combinedTranscript now apiKey outcome abortedDuring
      if abortedDuring then
        -- aiController.signal.aborted: discard the response, emit nothing
        (session1, call.1, [])
      else
        let session2 := { session1 with isAIGenerating := false, currentAIController := false }
        let emitsAi := [Emit.aiResponse call.2 combinedTranscript avgConfidence true]
        if ttsAvailable && !session2.isTTSPlaying then
          let session3 := { session2 with
            currentTTSController := true
            isTTSPlaying := true
            lastTTSStartTime := some now }
          if ttsOk then
            ({ session3 with isTTSPlaying := false, currentTTSController := false },
              call.1, emitsAi ++ [Emit.ttsAudio call.2])
          else
            ({ session3 with isTTSPlaying := false, currentTTSController := false },
              call.1, emitsAi ++ [Emit.ttsError])
        else if !ttsAvailable then
          (session2, call.1, emitsAi ++ [Emit.ttsUnavailable])
        else
          (session2, call.1, emitsAi)

/-! ## Session orchestrator handlers (src: handleStopProcessing, handleAudioData) -/

/-- The socket scan of handleStopProcessing when no sessionId is supplied:
first session whose socket matches, in map insertion order. -/
def findSessionBySocket : List (String × Session) → ℕ → Option String
  | [], _ => none
  | (id, s) :: rest, socketId =>
    if s.socketId = socketId then some id else findSessionBySocket rest socketId

/-- The TTS cancellation block shared by the stop, start and disconnect
handlers: abort and clear when a TTS task is live. -/
def cancelTTSOnStop (s : Session) : Session :=
  if s.isTTSPlaying && s.currentTTSController then
    { s with isTTSPlaying := false, currentTTSController := false }
  else s

/-- The AI cancellation block shared by the stop, start and disconnect
handlers: abort and clear when an AI generation is live. -/
def cancelAIOnStop (s : Session) : Session :=
  if s.isAIGenerating && s.currentAIController then
    { s with isAIGenerating := false, currentAIController := false }
  else s

/-- The VAT cleanup of handleStopProcessing: clearTimeout on the pending
silence timer does not clear the stored handle, and the tracker is
deactivated with both counters reset. -/
def resetVadOnStop (v : VoiceActivityState) : VoiceActivityState :=
  { v with
    isActive := false
    transcriptionStarted := false
    consecutiveVoiceFrames := 0
    consecutiveSilenceFrames := 0 }

/-- Apply the VAT cleanup to the voiceActivityStates map when an entry
exists. -/
def vadStopCleanup (m : List (String × VoiceActivityState)) (sessionId : String) :
    List (String × VoiceActivityState) :=
  match lookupA m sessionId with
  | none => m
  | some v => setA m sessionId (resetVadOnStop v)

/-- The found-session branch of handleStopProcessing: stop processing, flush
a nonempty buffer through processBufferedTranscripts, clear the reply timer,
cancel live TTS and AI tasks, stop the transcription, reset the tracker, and
emit processing-stopped. The session stays registered. -/
def stopFound (st : ServerState) (sessionId : String) (session : Session)
    (now : ℤ) (apiKey : Bool) (outcome : ResponderOutcome)
    (abortedDuring ttsAvailable ttsOk : Bool) : ServerState × List Emit :=
  let session0 := { session with isProcessing := false }
  let flush :=
    if session0.transcriptBuffer.length > 0 then
      processBufferedTranscripts session0 st.conversations now apiKey outcome
        abortedDuring ttsAvailable ttsOk
    else (session0, st.conversations, [])
  let session2 := { flush.1 with aiResponseTimer := false }
  let session4 := cancelAIOnStop (cancelTTSOnStop session2)
  ({ st with
      sessions := setA st.sessions sessionId session4
      conversations := flush.2.1
      activeTranscriptions := stopTranscription st.activeTranscriptions sessionId
      voiceActivityStates := vadStopCleanup st.voiceActivityStates sessionId },
    flush.2.2 ++ [Emit.processingStopped])

/-- Source handleStopProcessing. The responder and TTS oracles are threaded
through because a nonempty buffer is flushed via processBufferedTranscripts
before teardown. -/
def handleStopProcessing (st : ServerState) (socketId : ℕ)
    (dataSessionId : Option String) (now : ℤ) (apiKey : Bool)
    (outcome : ResponderOutcome) (abortedDuring ttsAvailable ttsOk : Bool) :
    ServerState × List Emit :=
  let sid? :=
    match dataSessionId with
    | some sid => some sid
    | none => findSessionBySocket st.sessions socketId
  match sid? with
  | none => (st, [Emit.errorEvt "No active session found"])
  | some sessionId =>
    match lookupA st.sessions sessionId with
    | none => (st, [Emit.errorEvt "Session not found"])
    | some session =>
      stopFound st sessionId session now apiKey outcome abortedDuring ttsAvailable ttsOk

/-- The audio-data payload as received from the transport; absent JSON
fields are none. -/
structure AudioDataPayload where
  samples : Option (List ℤ)
  sampleRate : Option ℕ
  channels : Option ℕ
  sessionId : Option String
  deriving Repr, DecidableEq

/-- JavaScript truthiness of an optional string: missing and empty are both
falsy. -/
def jsTruthyString : Option String → Bool
  | none => false
  | some s => !(s.length = 0)

/-- JavaScript x || d for an optional number: missing and zero both give the
default. -/
def jsOrNat : Option ℕ → ℕ → ℕ
  | none, d => d
  | some n, d => if n = 0 then d else n

/-- Feed one analysis result into the tracker of a session (the inner part
of processAudioFrame): no tracker entry means no change. -/
def updateVoiceActivityInMap (vadMap : List (String × VoiceActivityState))
    (sessions : List (String × Session)) (sessionId : String) (now : ℤ)
    (isVoiceActive : Bool) : List (String × VoiceActivityState) × Bool :=
  match lookupA vadMap sessionId with
  | none => (vadMap, false)
  | some v =>
    let step := updateVoiceActivity v (lookupA sessions sessionId).isSome now isVoiceActive
    (setA vadMap sessionId step.1, step.2)

/-- Source handleAudioData. A malformed payload (missing data, missing or
empty sessionId, missing samples) emits the error event; an unknown session
or a session with processing disabled returns silently; otherwise the frame
is analyzed, the tracker is updated, the samples are forwarded to an active
transcription, and an empty processing-results event is emitted. The
asynchronous effects of a transcription start decision land outside this
handler. -/
def handleAudioData (st : ServerState) (data : Option AudioDataPayload) (now : ℤ) :
    ServerState × List Emit :=
  match data with
  | none => (st, [Emit.errorEvt "Invalid audio data"])
  | some d =>
    if !(jsTruthyString d.sessionId) || d.samples.isNone then
      (st, [Emit.errorEvt "Invalid audio data"])
    else
      let sid := d.sessionId.getD ""
      let samples := d.samples.getD []
      match lookupA st.sessions sid with
      | none => (st, [])
      | some session =>
        if !session.isProcessing then (st, [])
        else
          let frame : AudioFrame :=
            { timestamp := now
              samples := samples
              sampleRate := jsOrNat d.sampleRate 16000
              channels := jsOrNat d.channels 1 }
          let analysis := analyzeAudio frame
          let vadStep := updateVoiceActivityInMap st.voiceActivityStates st.sessions
            sid now analysis.isVoiceActive
          let transcriptions1 :=
            if isTranscriptionActive st.activeTranscriptions sid then
              addAudioChunk st.activeTranscriptions sid samples
            else st.activeTranscriptions
          ({ st with
              voiceActivityStates := vadStep.1
              activeTranscriptions := transcriptions1 },
            [Emit.processingResults])

/-- A concrete session used as the concrete input of witnesses and
counterexamples: one buffered fragment with text hello and confidence 1. -/
def sampleSession : Session :=
  { id := "s1"
    userId := "u1"
    socketId := 0
    isProcessing := true
    startTime := 0
    languageCode := "en-US"
    transcriptBuffer := [⟨"hello", 1, 0⟩]
    aiResponseTimer := false
    isTTSPlaying := false
    currentTTSController := false
    lastTTSStartTime := none
    currentAIController := false
    isAIGenerating := false
    lastAIStartTime := none }

/-- A concrete idle state: one registered session with an empty buffer, no
live tasks, a fresh tracker, no active transcription. -/
def idleServerState : ServerState :=
  { sessions := [("s1", { sampleSession with transcriptBuffer := [] })]
    voiceActivityStates := [("s1", initializeVoiceActivityState 0)]
    activeTranscriptions := []
    conversations := [] }

/-- A concrete state whose single session has processing disabled. -/
def stoppedServerState : ServerState :=
  { sessions := [("s1", { sampleSession with transcriptBuffer := [], isProcessing := false })]
    voiceActivityStates := [("s1", initializeVoiceActivityState 0)]
    activeTranscriptions := []
    conversations := [] }

theorem putA_of_none {α : Type} {m : List (String × α)} {k : String}
    (h : lookupA m k = none) (v : α) : putA m k v = m ++ [(k, v)] := by
  simp [putA, h]

theorem putA_of_some {α : Type} {m : List (String × α)} {k : String}
    (h : (lookupA m k).isSome) (v : α) : putA m k v = setA m k v := by
  simp [putA, h]

theorem lookupA_setA_of_some {α : Type} {m : List (String × α)} {k : String}
    (h : (lookupA m k).isSome) (w : α) : lookupA (setA m k w) k = some w := by
  induction m with
  | nil => simp [lookupA] at h
  | cons p rest ih =>
    obtain ⟨k0, v0⟩ := p
    by_cases hk : k0 = k
    · simp [lookupA, setA, hk]
    · simp only [lookupA, hk, if_false] at h
      simp only [setA, hk, if_false, lookupA]
      exact ih h

theorem lookupA_setA_of_none {α : Type} {m : List (String × α)} {k : String}
    (h : lookupA m k = none) (w : α) : lookupA (setA m k w) k = none := by
  induction m with
  | nil => simp [lookupA, setA]
  | cons p rest ih =>
    obtain ⟨k0, v0⟩ := p
    by_cases hk : k0 = k
    · simp [lookupA, hk] at h
    · simp only [lookupA, hk, if_false] at h
      simp only [setA, hk, if_false, lookupA]
      exact ih h

theorem setA_setA {α : Type} (m : List (String × α)) (k : String) (v w : α) :
    setA (setA m k v) k w = setA m k w := by
  induction m with
  | nil => rfl
  | cons p rest ih =>
    obtain ⟨k0, v0⟩ := p
    by_cases hk : k0 = k
    · simp [setA, hk, ih]
    · simp [setA, hk, ih]

theorem lookupA_delA {α : Type} (m : List (String × α)) (k : String) :
    lookupA (delA m k) k = none := by
  induction m with
  | nil => rfl
  | cons p rest ih =>
    obtain ⟨k0, v0⟩ := p
    by_cases hk : k0 = k
    · simpa [delA, hk] using ih
    · simp [delA, hk, lookupA, ih]

theorem delA_delA {α : Type} (m : List (String × α)) (k : String) :
    delA (delA m k) k = delA m k := by
  induction m with
  | nil => rfl
  | cons p rest ih =>
    obtain ⟨k0, v0⟩ := p
    by_cases hk : k0 = k
    · simp [delA, hk, ih]
    · simp [delA, hk, ih]

theorem lookupA_append_single_of_none {α : Type} {m : List (String × α)} {k : String}
    (h : lookupA m k = none) (v : α) : lookupA (m ++ [(k, v)]) k = some v := by
  induction m with
  | nil => simp [lookupA]
  | cons p rest ih =>
    obtain ⟨k0, v0⟩ := p
    by_cases hk : k0 = k
    · simp [lookupA, hk] at h
    · simp only [lookupA, hk, if_false] at h
      simp only [List.cons_append, lookupA, hk, if_false]
      exact ih h

theorem convMessages_addMessage (store : ConversationStore) (userId : String)
    (role : Role) (content : String) (now : ℤ) :
    convMessages (addMessage store userId role content now) userId =
      convMessages store userId ++ [⟨role, content, now⟩] := by
  cases h : lookupA store userId with
  | some c =>
    have hs : (lookupA store userId).isSome := by simp [h]
    simp only [addMessage, getConversation, h]
    rw [putA_of_some hs]
    simp only [convMessages, lookupA_setA_of_some hs, h]
  | none =>
    have hap := lookupA_append_single_of_none h (freshConversation userId now)
    simp only [addMessage, getConversation, h]
    rw [putA_of_none h]
    rw [putA_of_some (by simp [hap])]
    simp only [convMessages, lookupA_setA_of_some (show
      (lookupA (store ++ [(userId, freshConversation userId now)]) userId).isSome by
        simp [hap]), h]
    simp [freshConversation]

/-! ## Claim C5 -/

/-- Claim C5 counterexample: with one buffered fragment hello and a failing
(non-cancel) Responder call, the transport receives the fallback text through
the regular ai-response event and no ai-response-error event at all; only the
user turn reaches the Conversation. This refutes the claim that an
ai-response-error event is emitted on a non-cancel Responder failure. -/
theorem responder_failure_counterexample :
    (processBufferedTranscripts sampleSession [] 5 true ResponderOutcome.failure
        false false true).2.2 =
      [Emit.aiResponse fallbackResponse "hello"
        ((sampleSession.transcriptBuffer.map (fun item => item.confidence)).sum /
          (sampleSession.transcriptBuffer.length : ℚ)) true,
       Emit.ttsUnavailable] ∧
    Emit.aiResponseError ∉
      ([Emit.aiResponse fallbackResponse "hello"
        ((sampleSession.transcriptBuffer.map (fun item => item.confidence)).sum /
          (sampleSession.transcriptBuffer.length : ℚ)) true,
       Emit.ttsUnavailable] : List Emit) ∧
    convMessages (processBufferedTranscripts sampleSession [] 5 true
        ResponderOutcome.failure false false true).2.1 "u1" =
      [⟨Role.user, "hello", 5⟩] := by
  refine ⟨rfl, by simp, ?_⟩
  have h := convMessages_addMessage [] "u1" Role.user "hello" 5
  simpa [convMessages] using h

/-- Claim C5 as amended: on a non-cancel Responder failure, the fallback text
is emitted through the regular ai-response event, no ai-response-error event
is emitted, and the fallback is not appended to the Conversation — the store
receives only the user turn, which was added before the failure. -/
theorem responder_failure_fallback (session : Session) (store : ConversationStore)
    (now : ℤ) (ttsAvailable ttsOk : Bool)
    (hbuf : session.transcriptBuffer.length ≠ 0)
    (hne : (combineTranscripts session.transcriptBuffer).length ≠ 0) :
    Emit.aiResponseError ∉
      (processBufferedTranscripts session store now true ResponderOutcome.failure
        false ttsAvailable ttsOk).2.2 ∧
    Emit.aiResponse fallbackResponse (combineTranscripts session.transcriptBuffer)
      ((session.transcriptBuffer.map (fun item => item.confidence)).sum /
        (session.transcriptBuffer.length : ℚ)) true ∈
      (processBufferedTranscripts session store now true ResponderOutcome.failure
        false ttsAvailable ttsOk).2.2 ∧
    (processBufferedTranscripts session store now true ResponderOutcome.failure
        false ttsAvailable ttsOk).2.1 =
      addUserMessage store session.userId (combineTranscripts session.transcriptBuffer) now ∧
    convMessages (processBufferedTranscripts session store now true
        ResponderOutcome.failure false ttsAvailable ttsOk).2.1 session.userId =
      convMessages store session.userId ++
        [⟨Role.user, combineTranscripts session.transcriptBuffer, now⟩] := by
  simp only [processBufferedTranscripts]
  rw [if_neg hbuf, if_neg hne]
  split_ifs with h1 h2 h3 <;>
    simp_all [generateResponseWithOpenRouter, addUserMessage, convMessages_addMessage]

/-- Claim C5 witness: the amended theorem applied to the concrete session
with one buffered fragment. -/
theorem responder_failure_fallback_witness :
    sampleSession.transcriptBuffer.length ≠ 0 ∧
    (combineTranscripts sampleSession.transcriptBuffer).length ≠ 0 ∧
    Emit.aiResponseError ∉
      (processBufferedTranscripts sampleSession [] 5 true ResponderOutcome.failure
        false false true).2.2 :=
  ⟨by decide, by decide,
    (responder_failure_fallback sampleSession [] 5 false true (by decide) (by decide)).1⟩

/-! ## Claim C3 -/

/-- Claim C3: at inactivity-timer expiry, an empty buffer does nothing; a
nonempty buffer whose trimmed-filtered-joined text is empty is discarded
without a reply and without touching the store; otherwise the buffer is
drained to empty and the Conversation for the session user gains a user Turn
whose content is the fragments trimmed, empties filtered out, joined with
single spaces — followed by the assistant turn exactly when the Responder
succeeds. -/
theorem turn_buffer_expiry (session : Session) (store : ConversationStore)
    (now : ℤ) (outcome : ResponderOutcome) (ttsAvailable ttsOk : Bool) :
    (session.transcriptBuffer = [] →
      processBufferedTranscripts session store now true outcome false ttsAvailable ttsOk =
        (session, store, [])) ∧
    (session.transcriptBuffer ≠ [] →
      (combineTranscripts session.transcriptBuffer).length = 0 →
      processBufferedTranscripts session store now true outcome false ttsAvailable ttsOk =
        ({ session with transcriptBuffer := [] }, store, [])) ∧
    (session.transcriptBuffer ≠ [] →
      (combineTranscripts session.transcriptBuffer).length ≠ 0 →
      (processBufferedTranscripts session store now true outcome false
        ttsAvailable ttsOk).1.transcriptBuffer = [] ∧
      convMessages (processBufferedTranscripts session store now true outcome false
          ttsAvailable ttsOk).2.1 session.userId =
        convMessages store session.userId ++
          (⟨Role.user, combineTranscripts session.transcriptBuffer, now⟩ ::
            (match outcome with
             | ResponderOutcome.success t => [⟨Role.assistant, t, now⟩]
             | ResponderOutcome.failure => []))) := by
  refine ⟨?_, ?_, ?_⟩
  · intro hb
    simp [processBufferedTranscripts, hb]
  · intro hb hc
    have hlen : ¬ session.transcriptBuffer.length = 0 := by
      simpa [List.length_eq_zero] using hb
    simp only [processBufferedTranscripts]
    rw [if_neg hlen, if_pos hc]
  · intro hb hc
    have hlen : ¬ session.transcriptBuffer.length = 0 := by
      simpa [List.length_eq_zero] using hb
    simp only [processBufferedTranscripts]
    rw [if_neg hlen, if_neg hc]
    cases outcome with
    | success t =>
      split_ifs with h1 h2 h3 <;>
        simp_all [generateResponseWithOpenRouter, addUserMessage, addAssistantMessage,
          convMessages_addMessage]
    | failure =>
      split_ifs with h1 h2 h3 <;>
        simp_all [generateResponseWithOpenRouter, addUserMessage, addAssistantMessage,
          convMessages_addMessage]

/-- Claim C3 witness: the nonempty-buffer branch applied to the concrete
session with a succeeding Responder. -/
theorem turn_buffer_expiry_witness :
    sampleSession.transcriptBuffer ≠ [] ∧
    (processBufferedTranscripts sampleSession [] 5 true (ResponderOutcome.success "hi")
        false false true).1.transcriptBuffer = [] ∧
    convMessages (processBufferedTranscripts sampleSession [] 5 true
        (ResponderOutcome.success "hi") false false true).2.1 sampleSession.userId =
      convMessages [] sampleSession.userId ++
        (⟨Role.user, combineTranscripts sampleSession.transcriptBuffer, 5⟩ ::
          [⟨Role.assistant, "hi", 5⟩]) :=
  ⟨by decide,
    (turn_buffer_expiry sampleSession [] 5 (ResponderOutcome.success "hi") false true).2.2
      (by decide) (by decide)⟩

/-! ## Lemmas about the stop pipeline -/

theorem cancelTTSOnStop_projections (s : Session) :
    (cancelTTSOnStop s).isProcessing = s.isProcessing ∧
    (cancelTTSOnStop s).transcriptBuffer = s.transcriptBuffer ∧
    (cancelTTSOnStop s).aiResponseTimer = s.aiResponseTimer ∧
    (cancelTTSOnStop s).isAIGenerating = s.isAIGenerating ∧
    (cancelTTSOnStop s).currentAIController = s.currentAIController := by
  simp only [cancelTTSOnStop]
  split_ifs <;> simp

theorem cancelAIOnStop_projections (s : Session) :
    (cancelAIOnStop s).isProcessing = s.isProcessing ∧
    (cancelAIOnStop s).transcriptBuffer = s.transcriptBuffer ∧
    (cancelAIOnStop s).aiResponseTimer = s.aiResponseTimer ∧
    (cancelAIOnStop s).isTTSPlaying = s.isTTSPlaying ∧
    (cancelAIOnStop s).currentTTSController = s.currentTTSController := by
  simp only [cancelAIOnStop]
  split_ifs <;> simp

theorem cancelTTSOnStop_clear (s : Session) :
    ((cancelTTSOnStop s).isTTSPlaying && (cancelTTSOnStop s).currentTTSController) = false := by
  simp only [cancelTTSOnStop]
  split_ifs with hcond <;> simp_all

theorem cancelAIOnStop_clear (s : Session) :
    ((cancelAIOnStop s).isAIGenerating && (cancelAIOnStop s).currentAIController) = false := by
  simp only [cancelAIOnStop]
  split_ifs with hcond <;> simp_all

theorem processBufferedTranscripts_stopped (session : Session)
    (store : ConversationStore) (now : ℤ) (apiKey : Bool)
    (outcome : ResponderOutcome) (ab tts ttsOk : Bool)
    (hbuf : session.transcriptBuffer.length ≠ 0) :
    (processBufferedTranscripts session store now apiKey outcome ab tts
      ttsOk).1.transcriptBuffer = [] ∧
    (processBufferedTranscripts session store now apiKey outcome ab tts
      ttsOk).1.isProcessing = session.isProcessing ∧
    (processBufferedTranscripts session store now apiKey outcome ab tts
      ttsOk).1.aiResponseTimer = session.aiResponseTimer := by
  simp only [processBufferedTranscripts]
  rw [if_neg hbuf]
  split_ifs <;> simp

theorem processBufferedTranscripts_emit_kinds (session : Session)
    (store : ConversationStore) (now : ℤ) (apiKey : Bool)
    (outcome : ResponderOutcome) (ab tts ttsOk : Bool) :
    ∀ e ∈ (processBufferedTranscripts session store now apiKey outcome ab tts
      ttsOk).2.2,
      e ≠ Emit.processingStopped ∧ e ≠ Emit.aiResponseError ∧
        ∀ m, e ≠ Emit.errorEvt m := by
  simp only [processBufferedTranscripts]
  split_ifs <;> intro e he <;> simp at he <;>
    rcases he with rfl | rfl <;> simp

theorem stopTranscription_idem (m : List (String × TranscriptionSession)) (k : String) :
    stopTranscription (stopTranscription m k) k = stopTranscription m k := by
  cases h : lookupA m k with
  | none => simp [stopTranscription, h]
  | some s => simp [stopTranscription, h, lookupA_delA]

theorem vadStopCleanup_idem (m : List (String × VoiceActivityState)) (k : String) :
    vadStopCleanup (vadStopCleanup m k) k = vadStopCleanup m k := by
  cases h : lookupA m k with
  | none => simp [vadStopCleanup, h]
  | some v =>
    have hr : resetVadOnStop (resetVadOnStop v) = resetVadOnStop v := by
      cases v
      rfl
    simp only [vadStopCleanup, h]
    rw [lookupA_setA_of_some (by simp [h])]
    simp [hr, setA_setA]

theorem stopFound_noop (st : ServerState) (sid : String) (s4 : Session) (now : ℤ)
    (apiKey : Bool) (outcome : ResponderOutcome) (ab tts ttsOk : Bool)
    (hb : s4.transcriptBuffer = [])
    (hp : s4.isProcessing = false)
    (ht : s4.aiResponseTimer = false)
    (htts : (s4.isTTSPlaying && s4.currentTTSController) = false)
    (hai : (s4.isAIGenerating && s4.currentAIController) = false) :
    stopFound st sid s4 now apiKey outcome ab tts ttsOk =
      ({ st with
          sessions := setA st.sessions sid s4
          conversations := st.conversations
          activeTranscriptions := stopTranscription st.activeTranscriptions sid
          voiceActivityStates := vadStopCleanup st.voiceActivityStates sid },
        [Emit.processingStopped]) := by
  obtain ⟨sId, sUser, sSock, sProc, sStart, sLang, sBuf, sTimer, sTtsP, sTtsC,
    sTtsT, sAiC, sAiG, sAiT⟩ := s4
  simp only at hb hp ht htts hai
  subst hb
  subst hp
  subst ht
  simp [stopFound, cancelTTSOnStop, cancelAIOnStop, htts, hai]

theorem stopFound_spec (st : ServerState) (sid : String) (session : Session)
    (now : ℤ) (apiKey : Bool) (outcome : ResponderOutcome) (ab tts ttsOk : Bool) :
    ∃ s4 convs1 emits1,
      stopFound st sid session now apiKey outcome ab tts ttsOk =
        ({ st with
            sessions := setA st.sessions sid s4
            conversations := convs1
            activeTranscriptions := stopTranscription st.activeTranscriptions sid
            voiceActivityStates := vadStopCleanup st.voiceActivityStates sid },
          emits1 ++ [Emit.processingStopped]) ∧
      s4.transcriptBuffer = [] ∧ s4.isProcessing = false ∧
      s4.aiResponseTimer = false ∧
      (s4.isTTSPlaying && s4.currentTTSController) = false ∧
      (s4.isAIGenerating && s4.currentAIController) = false ∧
      (∀ e ∈ emits1, e ≠ Emit.processingStopped ∧ e ≠ Emit.aiResponseError ∧
        ∀ m, e ≠ Emit.errorEvt m) := by
  by_cases hbuf : session.transcriptBuffer.length > 0
  · -- the buffer is flushed through processBufferedTranscripts
    have hne : ({ session with isProcessing := false } : Session).transcriptBuffer.length ≠ 0 := by
      simpa using Nat.pos_iff_ne_zero.mp hbuf
    obtain ⟨hflushB, hflushP, hflushT⟩ :=
      processBufferedTranscripts_stopped { session with isProcessing := false }
        st.conversations now apiKey outcome ab tts ttsOk hne
    refine ⟨cancelAIOnStop (cancelTTSOnStop
        { (processBufferedTranscripts { session with isProcessing := false }
            st.conversations now apiKey outcome ab tts ttsOk).1 with aiResponseTimer := false }),
      (processBufferedTranscripts { session with isProcessing := false }
        st.conversations now apiKey outcome ab tts ttsOk).2.1,
      (processBufferedTranscripts { session with isProcessing := false }
        st.conversations now apiKey outcome ab tts ttsOk).2.2,
      ?_, ?_, ?_, ?_, ?_, ?_, ?_⟩
    · simp only [stopFound]
      rw [if_pos (by simpa using hbuf)]
    · simp [(cancelAIOnStop_projections _).2.1, (cancelTTSOnStop_projections _).2.1, hflushB]
    · simp [(cancelAIOnStop_projections _).1, (cancelTTSOnStop_projections _).1, hflushP]
    · simp [(cancelAIOnStop_projections _).2.2.1, (cancelTTSOnStop_projections _).2.2.1]
    · rw [(cancelAIOnStop_projections _).2.2.2.1, (cancelAIOnStop_projections _).2.2.2.2]
      exact cancelTTSOnStop_clear _
    · exact cancelAIOnStop_clear _
    · exact processBufferedTranscripts_emit_kinds _ _ _ _ _ _ _ _
  · -- empty buffer: no flush
    have hb0 : session.transcriptBuffer = [] := by
      simpa [List.length_eq_zero] using Nat.eq_zero_of_not_pos hbuf
    refine ⟨cancelAIOnStop (cancelTTSOnStop
        { { session with isProcessing := false } with aiResponseTimer := false }),
      st.conversations, [], ?_, ?_, ?_, ?_, ?_, ?_, ?_⟩
    · simp only [stopFound]
      rw [if_neg (by simpa using hbuf)]
    · simp [(cancelAIOnStop_projections _).2.1, (cancelTTSOnStop_projections _).2.1, hb0]
    · simp [(cancelAIOnStop_projections _).1, (cancelTTSOnStop_projections _).1]
    · simp [(cancelAIOnStop_projections _).2.2.1, (cancelTTSOnStop_projections _).2.2.1]
    · rw [(cancelAIOnStop_projections _).2.2.2.1, (cancelAIOnStop_projections _).2.2.2.2]
      exact cancelTTSOnStop_clear _
    · exact cancelAIOnStop_clear _
    · intro e he
      simp at he

/-! ## Claim C2 -/

/-- Claim C2 counterexample: on a concrete idle session, two successive
stop-processing events emit processing-stopped twice, not once, because the
handler never deregisters the session and emits the event unconditionally
whenever the session is found. -/
theorem stop_processing_twice_counterexample :
    (handleStopProcessing idleServerState 0 (some "s1") 1 true
        ResponderOutcome.failure false false true).2 = [Emit.processingStopped] ∧
    (handleStopProcessing (handleStopProcessing idleServerState 0 (some "s1") 1 true
          ResponderOutcome.failure false false true).1 0 (some "s1") 2 true
        ResponderOutcome.failure false false true).2 = [Emit.processingStopped] ∧
    ((handleStopProcessing idleServerState 0 (some "s1") 1 true
          ResponderOutcome.failure false false true).2 ++
        (handleStopProcessing (handleStopProcessing idleServerState 0 (some "s1") 1 true
              ResponderOutcome.failure false false true).1 0 (some "s1") 2 true
            ResponderOutcome.failure false false true).2).count
        Emit.processingStopped = 2 ∧
    ¬ ((handleStopProcessing idleServerState 0 (some "s1") 1 true
          ResponderOutcome.failure false false true).2 ++
        (handleStopProcessing (handleStopProcessing idleServerState 0 (some "s1") 1 true
              ResponderOutcome.failure false false true).1 0 (some "s1") 2 true
            ResponderOutcome.failure false false true).2).count
        Emit.processingStopped = 1 := by
  decide

/-- Claim C2 as amended: two successive stop-processing events for a
registered session produce one effective teardown — the second call leaves
the state exactly where the first left it — and two processing-stopped
events, one per stop event, with no error and no ai-response-error events. -/
theorem stop_processing_idempotent (st : ServerState) (sock : ℕ) (sid : String)
    (session : Session) (now1 now2 : ℤ) (apiKey : Bool)
    (outcome : ResponderOutcome) (ab tts ttsOk : Bool)
    (h : lookupA st.sessions sid = some session) :
    (handleStopProcessing (handleStopProcessing st sock (some sid) now1 apiKey
          outcome ab tts ttsOk).1 sock (some sid) now2 apiKey outcome ab tts
        ttsOk).1 =
      (handleStopProcessing st sock (some sid) now1 apiKey outcome ab tts ttsOk).1 ∧
    (handleStopProcessing (handleStopProcessing st sock (some sid) now1 apiKey
          outcome ab tts ttsOk).1 sock (some sid) now2 apiKey outcome ab tts
        ttsOk).2 = [Emit.processingStopped] ∧
    ((handleStopProcessing st sock (some sid) now1 apiKey outcome ab tts ttsOk).2 ++
        (handleStopProcessing (handleStopProcessing st sock (some sid) now1 apiKey
            outcome ab tts ttsOk).1 sock (some sid) now2 apiKey outcome ab tts
          ttsOk).2).count Emit.processingStopped = 2 ∧
    (∀ m, Emit.errorEvt m ∉
      (handleStopProcessing st sock (some sid) now1 apiKey outcome ab tts ttsOk).2 ++
        (handleStopProcessing (handleStopProcessing st sock (some sid) now1 apiKey
            outcome ab tts ttsOk).1 sock (some sid) now2 apiKey outcome ab tts
          ttsOk).2) ∧
    Emit.aiResponseError ∉
      (handleStopProcessing st sock (some sid) now1 apiKey outcome ab tts ttsOk).2 ++
        (handleStopProcessing (handleStopProcessing st sock (some sid) now1 apiKey
            outcome ab tts ttsOk).1 sock (some sid) now2 apiKey outcome ab tts
          ttsOk).2 := by
  have hsome : (lookupA st.sessions sid).isSome := by simp [h]
  obtain ⟨s4, convs1, emits1, heq, hb4, hp4, ht4, htts4, hai4, hemits⟩ :=
    stopFound_spec st sid session now1 apiKey outcome ab tts ttsOk
  have hfirst : handleStopProcessing st sock (some sid) now1 apiKey outcome ab tts ttsOk =
      ({ st with
          sessions := setA st.sessions sid s4
          conversations := convs1
          activeTranscriptions := stopTranscription st.activeTranscriptions sid
          voiceActivityStates := vadStopCleanup st.voiceActivityStates sid },
        emits1 ++ [Emit.processingStopped]) := by
    simp only [handleStopProcessing, h]
    exact heq
  have h1 : lookupA (setA st.sessions sid s4) sid = some s4 :=
    lookupA_setA_of_some hsome s4
  have hsecond : handleStopProcessing (handleStopProcessing st sock (some sid) now1
        apiKey outcome ab tts ttsOk).1 sock (some sid) now2 apiKey outcome ab tts ttsOk =
      ({ st with
          sessions := setA st.sessions sid s4
          conversations := convs1
          activeTranscriptions := stopTranscription st.activeTranscriptions sid
          voiceActivityStates := vadStopCleanup st.voiceActivityStates sid },
        [Emit.processingStopped]) := by
    rw [hfirst]
    simp only [handleStopProcessing, h1]
    rw [stopFound_noop _ _ _ _ _ _ _ _ _ hb4 hp4 ht4 htts4 hai4]
    simp [setA_setA, stopTranscription_idem, vadStopCleanup_idem]
  refine ⟨?_, ?_, ?_, ?_, ?_⟩
  · rw [hsecond, hfirst]
  · rw [hsecond]
  · rw [hsecond, hfirst]
    have hz : emits1.count Emit.processingStopped = 0 :=
      List.count_eq_zero.mpr (fun hmem => (hemits _ hmem).1 rfl)
    simp [List.count_append, hz]
  · intro m
    rw [hsecond, hfirst]
    simp only [List.mem_append, List.mem_singleton, not_or]
    refine ⟨⟨fun hmem => ?_, by simp⟩, by simp⟩
    exact ((hemits _ hmem).2.2 m) rfl
  · rw [hsecond, hfirst]
    simp only [List.mem_append, List.mem_singleton, not_or]
    refine ⟨⟨fun hmem => ?_, by simp⟩, by simp⟩
    exact ((hemits _ hmem).2.1) rfl

/-- Claim C2 witness: the amended theorem applied to the concrete idle
state. -/
theorem stop_processing_idempotent_witness :
    lookupA idleServerState.sessions "s1" =
      some { sampleSession with transcriptBuffer := [] } ∧
    (handleStopProcessing (handleStopProcessing idleServerState 0 (some "s1") 1 true
          ResponderOutcome.failure false false true).1 0 (some "s1") 2 true
        ResponderOutcome.failure false false true).1 =
      (handleStopProcessing idleServerState 0 (some "s1") 1 true
        ResponderOutcome.failure false false true).1 :=
  ⟨rfl,
    (stop_processing_idempotent idleServerState 0 "s1"
      { sampleSession with transcriptBuffer := [] } 1 2 true
      ResponderOutcome.failure false false true rfl).1⟩

/-! ## Claim C9 -/

/-- Claim C9: an audio-data event for an existing session whose processing
flag is false returns silently — state untouched, no events; a missing
payload, a missing or empty sessionId, or missing samples emit the error
event without state change; and the error event appears only for malformed
payloads. -/
theorem audio_data_ignored_when_not_processing (st : ServerState)
    (d : AudioDataPayload) (now : ℤ) (sid : String) (session : Session) :
    (d.sessionId = some sid → jsTruthyString d.sessionId = true →
      d.samples.isSome → lookupA st.sessions sid = some session →
      session.isProcessing = false →
      handleAudioData st (some d) now = (st, [])) ∧
    (handleAudioData st none now = (st, [Emit.errorEvt "Invalid audio data"])) ∧
    ((!(jsTruthyString d.sessionId) || d.samples.isNone) = true →
      handleAudioData st (some d) now = (st, [Emit.errorEvt "Invalid audio data"])) ∧
    (∀ m, Emit.errorEvt m ∈ (handleAudioData st (some d) now).2 →
      (!(jsTruthyString d.sessionId) || d.samples.isNone) = true) := by
  refine ⟨?_, rfl, ?_, ?_⟩
  · intro hsid htruthy hsamples hlook hproc
    have hc : (!(jsTruthyString d.sessionId) || d.samples.isNone) = false := by
      cases hs : d.samples with
      | none => rw [hs] at hsamples; simp at hsamples
      | some v => simp [htruthy, hs]
    simp only [handleAudioData, hc, Bool.false_eq_true, if_false]
    rw [hsid]
    simp only [Option.getD_some]
    rw [hlook]
    simp [hproc]
  · intro hc
    simp [handleAudioData, hc]
  · intro m hmem
    by_cases hc : (!(jsTruthyString d.sessionId) || d.samples.isNone) = true
    · exact hc
    · exfalso
      have hcf : (!(jsTruthyString d.sessionId) || d.samples.isNone) = false := by
        revert hc
        cases (!(jsTruthyString d.sessionId) || d.samples.isNone) <;> simp
      simp only [handleAudioData, hcf, Bool.false_eq_true, if_false] at hmem
      cases hlook : lookupA st.sessions (d.sessionId.getD "") with
      | none => rw [hlook] at hmem; simp at hmem
      | some s =>
        rw [hlook] at hmem
        by_cases hp : s.isProcessing
        · simp [hp] at hmem
        · simp [hp] at hmem

/-- Claim C9 witness: a well-formed frame for the stopped concrete session
is ignored; a malformed payload errors. -/
theorem audio_data_ignored_witness :
    handleAudioData stoppedServerState
      (some ⟨some [1, 2], none, none, some "s1"⟩) 0 = (stoppedServerState, []) ∧
    handleAudioData stoppedServerState none 0 =
      (stoppedServerState, [Emit.errorEvt "Invalid audio data"]) :=
  ⟨(audio_data_ignored_when_not_processing stoppedServerState
      ⟨some [1, 2], none, none, some "s1"⟩ 0 "s1"
      { sampleSession with transcriptBuffer := [], isProcessing := false }).1
      rfl (by decide) (by decide) rfl rfl,
    (audio_data_ignored_when_not_processing stoppedServerState
      ⟨some [1, 2], none, none, some "s1"⟩ 0 "s1"
      { sampleSession with transcriptBuffer := [], isProcessing := false }).2.1⟩

/-! ## Claim C1 -/

theorem updateVoiceActivity_voice_no_start (s : VoiceActivityState) (se : Bool)
    (now : ℤ) (h : now - s.lastTranscriptionStart ≤ 2000) :
    updateVoiceActivity s se now true =
      ({ s with
        consecutiveVoiceFrames := s.consecutiveVoiceFrames + 1
        consecutiveSilenceFrames := 0
        lastVoiceTime := now
        isActive := true
        silenceTimer := false }, false) := by
  simp only [updateVoiceActivity]
  split_ifs with hv hs hse
  · exact absurd hs.2.2 (by omega)
  · rfl
  · rfl
  all_goals simp_all

theorem runVad_no_start_of_within_window (ts : List ℤ) (s : VoiceActivityState)
    (h : ∀ t ∈ ts, t - s.lastTranscriptionStart ≤ 2000) :
    (runVad s true (ts.map (fun t => (t, true)))).2 = 0 ∧
    (runVad s true (ts.map (fun t => (t, true)))).1.lastTranscriptionStart =
      s.lastTranscriptionStart := by
  induction ts generalizing s with
  | nil => simp [runVad]
  | cons t rest ih =>
    have ht : t - s.lastTranscriptionStart ≤ 2000 := h t (List.mem_cons_self t rest)
    have hstep := updateVoiceActivity_voice_no_start s true t ht
    have hrest : ∀ u ∈ rest,
        u - ({ s with
          consecutiveVoiceFrames := s.consecutiveVoiceFrames + 1
          consecutiveSilenceFrames := 0
          lastVoiceTime := t
          isActive := true
          silenceTimer := false } : VoiceActivityState).lastTranscriptionStart ≤ 2000 := by
      intro u hu
      simpa using h u (List.mem_cons_of_mem t hu)
    have htail := ih _ hrest
    simp only [List.map_cons, runVad, hstep]
    simpa using htail

/-- Claim C1: with the voice counter at zero and transcription not started, a
run of exactly 2 voice frames makes no START_TRANSCRIPTION decision; a run
of 3 voice frames whose third frame is more than 2000 ms past the last
transcription start makes exactly one, and continuing the same voice run
(further voice frames within 2000 ms of the start) does not make a second
one, because lastTranscriptionStart is set at the moment of the start. -/
theorem vat_debounce_window (s : VoiceActivityState) (t1 t2 t3 : ℤ) (rest : List ℤ)
    (hcnt : s.consecutiveVoiceFrames = 0)
    (hstarted : s.transcriptionStarted = false)
    (hgap : 2000 < t3 - s.lastTranscriptionStart)
    (hrun : ∀ t ∈ rest, t - t3 ≤ 2000) :
    (runVad s true [(t1, true), (t2, true)]).2 = 0 ∧
    (runVad s true
      ((t1, true) :: (t2, true) :: (t3, true) :: rest.map (fun t => (t, true)))).2 = 1 := by
  obtain ⟨ia, lv, lts, stm, tst, cv, cs⟩ := s
  simp only at hcnt hstarted hgap
  subst hcnt
  subst hstarted
  have e1 : updateVoiceActivity ⟨ia, lv, lts, stm, false, 0, cs⟩ true t1 true =
      (⟨true, t1, lts, false, false, 1, 0⟩, false) := by
    simp [updateVoiceActivity]
  have e2 : updateVoiceActivity ⟨true, t1, lts, false, false, 1, 0⟩ true t2 true =
      (⟨true, t2, lts, false, false, 2, 0⟩, false) := by
    simp [updateVoiceActivity]
  have e3 : updateVoiceActivity ⟨true, t2, lts, false, false, 2, 0⟩ true t3 true =
      (⟨true, t3, t3, false, false, 3, 0⟩, true) := by
    simp [updateVoiceActivity, hgap]
  have htail := runVad_no_start_of_within_window rest
    ⟨true, t3, t3, false, false, 3, 0⟩ (by intro u hu; simpa using hrun u hu)
  constructor
  · simp [runVad, e1, e2]
  · simp only [runVad, e1, e2, e3]
    simp [htail.1]

/-- Claim C1 witness: the freshly initialized tracker, two voice frames at
3000 and 3001 ms give no start; three voice frames at 3000..3002 ms with the
run continuing at 3003 and 3004 ms give exactly one start. -/
theorem vat_debounce_window_witness :
    (runVad (initializeVoiceActivityState 0) true [(3000, true), (3001, true)]).2 = 0 ∧
    (runVad (initializeVoiceActivityState 0) true
      ((3000, true) :: (3001, true) :: (3002, true) ::
        ([3003, 3004].map (fun t => (t, true))))).2 = 1 :=
  vat_debounce_window (initializeVoiceActivityState 0) 3000 3001 3002 [3003, 3004]
    rfl rfl (by decide) (by decide)

/-! ## Claim C8 -/

/-- Claim C8: for every processed frame the voice and silence counters are
mutually exclusive; the incremented counter resets the other to zero, so at
most one of the two is nonzero afterwards. -/
theorem vat_counters_mutually_exclusive (s : VoiceActivityState) (se : Bool)
    (now : ℤ) (v : Bool) :
    ((updateVoiceActivity s se now v).1.consecutiveVoiceFrames =
      if v = true then s.consecutiveVoiceFrames + 1 else 0) ∧
    ((updateVoiceActivity s se now v).1.consecutiveSilenceFrames =
      if v = true then 0 else s.consecutiveSilenceFrames + 1) ∧
    ((updateVoiceActivity s se now v).1.consecutiveVoiceFrames = 0 ∨
      (updateVoiceActivity s se now v).1.consecutiveSilenceFrames = 0) := by
  cases v <;> simp only [updateVoiceActivity] <;> split_ifs <;> simp

/-! ## Claim C4 -/

/-- Claim C4 counterexample: on a frame with zero samples the analyzer
returns volume NaN, not volume 0 — in the source, rms is the square root of
0/0, which is NaN in JavaScript, and NaN survives round, max and min.
Voice-active is indeed false because a NaN comparison is false. -/
theorem analyze_empty_frame_counterexample :
    (analyzeAudio ⟨0, [], 16000, 1⟩).volume = JSNum.nan ∧
    (analyzeAudio ⟨0, [], 16000, 1⟩).volume ≠ JSNum.fin 0 ∧
    (analyzeAudio ⟨0, [], 16000, 1⟩).isVoiceActive = false := by
  decide

/-- Claim C4 as amended: for any frame with zero samples the analyzer does
not fail, classifies the frame as not voice-active, and reports volume NaN
(not volume 0) together with a NaN zero-crossing rate. -/
theorem analyze_empty_frame (t : ℤ) (r c : ℕ) :
    (analyzeAudio ⟨t, [], r, c⟩).volume = JSNum.nan ∧
    (analyzeAudio ⟨t, [], r, c⟩).isVoiceActive = false ∧
    (analyzeAudio ⟨t, [], r, c⟩).zeroCrossingRate = JSNum.nan ∧
    (analyzeAudio ⟨t, [], r, c⟩).sampleCount = 0 := by
  simp [analyzeAudio, analyzeVolume, sumSquares, zeroCrossings, jsDiv, jsGt]

/-! ## Claim C10 -/

/-- Claim C10: conversation history reads are not side-effect-free — for a
user id with no stored Conversation, getConversationHistory lazily creates
an empty Conversation, so the stats gain one conversation and zero
messages, and the returned history is empty. -/
theorem history_read_creates_conversation (store : ConversationStore)
    (userId : String) (limit : ℕ) (now : ℤ) (h : lookupA store userId = none) :
    getStats (getConversationHistory store userId limit now).1 =
      ⟨(getStats store).totalConversations + 1, (getStats store).totalMessages⟩ ∧
    (getConversationHistory store userId limit now).2 = [] := by
  simp [getConversationHistory, getConversation, h, putA, getStats, freshConversation]

/-- Claim C10 witness: a concrete unseen user on the empty store. -/
theorem history_read_creates_conversation_witness :
    getStats (getConversationHistory [] "u1" 20 0).1 = ⟨1, 0⟩ ∧
    (getConversationHistory [] "u1" 20 0).2 = [] :=
  history_read_creates_conversation [] "u1" 20 0 rfl

/-! ## Claim C6 -/

/-- Claim C6 counterexample: the conversation-stats payload keys are
totalConversations, totalMessages and timestamp — not the conversationCount
and totalTurns keys the specification states. -/
theorem conversation_stats_keys_counterexample :
    (conversationStatsPayload [] 0).map Prod.fst =
      ["totalConversations", "totalMessages", "timestamp"] ∧
    (conversationStatsPayload [] 0).map Prod.fst ≠ specConversationStatsKeys := by
  decide

/-- Claim C6 as amended: getStats returns the record with fields
totalConversations and totalMessages (the conversation count and the total
turn count), and the conversation-stats event carries exactly the spread of
that record plus a timestamp. -/
theorem conversation_stats_payload (store : ConversationStore) (now : ℤ) :
    getStats store =
      ⟨store.length, (store.map (fun p => p.2.messages.length)).sum⟩ ∧
    handleGetConversationStats store now =
      [Emit.conversationStats
        [("totalConversations", (store.length : ℤ)),
         ("totalMessages", (((store.map (fun p => p.2.messages.length)).sum : ℕ) : ℤ)),
         ("timestamp", now)]] := by
  exact ⟨rfl, rfl⟩

/-! ## Claim C7 -/

/-- Claim C7, evaluated on the code: the server registers no /health-check
route, so GET /health-check hits the Express default 404; the health body is
served at GET /health only, with status ok, the session count, the active
transcription count, the uptime and a timestamp. The repository docs and the
quoted bin/health-check script probe /health-check, which this route table
cannot satisfy. -/
theorem health_check_route_missing (st : ServerState) (uptime : ℚ) (nowIso : String) :
    httpGetStatus "/health-check" = 404 ∧
    httpGetStatus "/health" = 200 ∧
    healthHandler st uptime nowIso =
      ⟨"ok", st.sessions.length, st.activeTranscriptions.length, uptime, nowIso⟩ := by
  exact ⟨by decide, by decide, rfl⟩

end ConvoStream
